import Mathlib

/-!
Shallow embedding of the competition-announcement discovery pipeline:
`test_spider.py` (class `AdCompetitionSpider`: `get_text_from_image`,
`parse_news_content`, `fetch_news_urls`) and `newbot.py`
(class `CompetitionBot`: `save_competition`, `run_task`, and the
`scheduled_task` loop in `main`).

External effects (HTTP requests, OCR, the `re` regex engine) are modelled
as explicit inputs: a `World` record supplies the listing-page fetch
result, each detail page's fetch result, each image URL's download/OCR
outcome, and a regex-search oracle `search pattern text = some groups`
standing for Python `re.search(pattern, text)` (returning the tuple of
captured groups on success).  Control flow, pattern order, defaulting and
error paths are translated directly from the Python source.
-/

namespace Trake

/-- Character-list test: does the first list occur as a leading segment of
the second; used to embed Python `str.startswith`. -/
def starts_chars : List Char → List Char → Bool
  | [], _ => true
  | _ :: _, [] => false
  | a :: as, b :: bs => a == b && starts_chars as bs

/-- Character-list substring occurrence, used to embed Python `needle in hay`. -/
def contains_chars (needle : List Char) : List Char → Bool
  | [] => needle.isEmpty
  | c :: cs => starts_chars needle (c :: cs) || contains_chars needle cs

/-- Embedding of Python `hay.startswith(pre)`. -/
def str_starts (hay pre : String) : Bool :=
  starts_chars pre.data hay.data

/-- Embedding of Python `needle in hay` (case-sensitive substring). -/
def str_contains (hay needle : String) : Bool :=
  contains_chars needle.data hay.data

/-- Embedding of Python `s.lstrip('/')`. -/
def lstrip_slash (s : String) : String :=
  String.mk (s.data.dropWhile (fun c => c == '/'))

/-- Ordered concatenation of a list of string parts (the shape of repeated
`content_text += ...` accumulation). -/
def concat_parts : List String → String
  | [] => ""
  | s :: rest => s ++ concat_parts rest

/-- `self.base_url` of `AdCompetitionSpider`. -/
def base_url : String := "https://www.sun-ada.net"

/-- Outcome of one image download/recognition attempt
(`requests.get(image_url)` followed by PIL decoding and OCR inside
`get_text_from_image`): either the download raised, or an HTTP response
with a status code arrived and — if the code was 200 — decoding plus OCR
either raised (`Except.error`) or produced the OCR result, a list of lines
each holding the recognized word texts. -/
inductive ImgFetch where
  | exn
  | response (code : Nat) (ocr : Except Unit (List (List String)))

/-- Embedding of `AdCompetitionSpider.get_text_from_image` (test_spider.py
lines 22-53): non-200 status returns `""`; any exception during download,
decoding or recognition returns `""`; otherwise the recognized word texts
of all lines are joined with newlines. -/
def get_text_from_image : ImgFetch → String
  | ImgFetch.exn => ""
  | ImgFetch.response code ocr =>
    if code != 200 then ""
    else
      match ocr with
      | Except.error _ => ""
      | Except.ok result => String.intercalate "\n" result.flatten

/-- Embedding of the image-URL normalization in `parse_news_content`
(lines 70-71): relative sources are resolved against `base_url` after
stripping leading slashes. -/
def normalize_img_url (src : String) : String :=
  if str_starts src "http" then src
  else base_url ++ "/" ++ lstrip_slash src

/-- Per-image contribution to `content_text` in `parse_news_content`
(lines 67-76): an empty `src` attribute is skipped, and a recognized text
is appended with a leading newline only when it is nonempty. -/
def img_contribution (wi : String → ImgFetch) (src : String) : String :=
  if src = "" then ""
  else
    let t := get_text_from_image (wi (normalize_img_url src))
    if t = "" then "" else "\n" ++ t

/-- Embedding of the `content_text` accumulation loop of
`parse_news_content` (lines 64-76): fold over the page's `img` `src`
attributes in document order. -/
def collect_content_text (wi : String → ImgFetch) (imgs : List String) : String :=
  imgs.foldl (fun acc src =>
    if src = "" then acc
    else
      let t := get_text_from_image (wi (normalize_img_url src))
      if t = "" then acc else acc ++ "\n" ++ t) ""

/-- `date_patterns` of `parse_news_content` (lines 79-86), verbatim. -/
def date_patterns : List String :=
  ["报名日期[：:]\\s*([\\d年月日\\s至]+)",
   "报名时间[：:]\\s*([\\d年月日\\s至]+)",
   "(\\d\x7b4\x7d年\\d\x7b1,2\x7d月\\d\x7b1,2\x7d日)[至到]\\s*(\\d\x7b4\x7d年\\d\x7b1,2\x7d月\\d\x7b1,2\x7d日)",
   "(\\d\x7b4\x7d\\.\\d\x7b1,2\x7d\\.\\d\x7b1,2\x7d)[至到]\\s*(\\d\x7b4\x7d\\.\\d\x7b1,2\x7d\\.\\d\x7b1,2\x7d)",
   "(\\d\x7b4\x7d年\\d\x7b1,2\x7d月\\d\x7b1,2\x7d日)\\s*[起至到]\\s*(\\d\x7b4\x7d年\\d\x7b1,2\x7d月\\d\x7b1,2\x7d日)\\s*[结束]?",
   "(\\d\x7b4\x7d\\.\\d\x7b1,2\x7d\\.\\d\x7b1,2\x7d)\\s*[起至到]\\s*(\\d\x7b4\x7d\\.\\d\x7b1,2\x7d\\.\\d\x7b1,2\x7d)\\s*[结束]?"]

/-- `requirements_patterns` (lines 89-94), verbatim. -/
def requirements_patterns : List String :=
  ["参赛对象[：:]\\s*([^。\\n]+)",
   "参赛资格[：:]\\s*([^。\\n]+)",
   "参赛人员[：:]\\s*([^。\\n]+)",
   "参赛范围[：:]\\s*([^。\\n]+)"]

/-- `organizer_patterns` (lines 97-101), verbatim. -/
def organizer_patterns : List String :=
  ["主办[：:]\\s*([^。\\n]+)",
   "主办单位[：:]\\s*([^。\\n]+)",
   "主办方[：:]\\s*([^。\\n]+)"]

/-- `undertaker_patterns` (lines 104-108), verbatim. -/
def undertaker_patterns : List String :=
  ["承办[：:]\\s*([^。\\n]+)",
   "承办单位[：:]\\s*([^。\\n]+)",
   "承办方[：:]\\s*([^。\\n]+)"]

/-- The first-match loop shared by all four pattern families
(`for pattern in ...: match = re.search(pattern, content_text); if match:
...; break`): try the patterns in list order, return the groups of the
first successful search, never consulting later patterns. -/
def try_patterns (search : String → Option (List String)) : List String → Option (List String)
  | [] => none
  | p :: ps =>
    match search p with
    | some gs => some gs
    | none => try_patterns search ps

/-- Group post-processing of the date family (lines 115-118): a one-group
match yields the group, a two-group match yields the `start至end`
composite, any other group count leaves `date_info` unset. -/
def process_date_groups : List String → Option String
  | [g1] => some g1
  | [g1, g2] => some (g1 ++ "至" ++ g2)
  | _ => none

/-- The simple families (requirements, organizer, undertaker) take
`match.group(1)`, the first captured group, from the first matching
pattern. -/
def match_field (search : String → Option (List String)) (pats : List String) : Option String :=
  (try_patterns search pats).bind (fun gs => gs.head?)

/-- Pythonic defaulting `x if x else sentinel` on an optional field value:
both `None` and the empty string fall back to the sentinel. -/
def or_sentinel : Option String → String → String
  | none, d => d
  | some s, d => if s = "" then d else s

/-- Result of fetching one detail page inside `parse_news_content`:
either `requests.get` (or anything else in the `try` block) raised, or the
page body was parsed and yielded the list of `img` tag `src` attributes in
document order. -/
inductive PageResult where
  | exn
  | ok (imgs : List String)

/-- `content_info` dictionary returned by `parse_news_content`
(lines 143-149). -/
structure ContentInfo where
  content : String
  date_info : String
  requirements : String
  organizer : String
  undertaker : String
deriving DecidableEq

/-- `<a>` element of one listing item: optional `<h3>` title text and
optional `<em>` date text (both as produced by `get_text(strip=True)`),
and the `href` attribute (defaulted to `""` by `link.get('href', '')`). -/
structure LinkData where
  h3 : Option String
  em : Option String
  href : String
deriving DecidableEq

/-- One `<li>` of the news list: its `<a>` element, when present. -/
structure ListItem where
  link : Option LinkData
deriving DecidableEq

/-- Result of fetching the listing index page in `fetch_news_urls`: either
the `try` block raised (network error), or an HTTP response with a status
code arrived whose body either lacks the `ul.list_news` container
(`none`) or holds the list items.  The source never inspects the status
code, so it is carried but unused. -/
inductive ListingResult where
  | exn
  | response (status : Nat) (newsList : Option (List ListItem))

/-- All external-effect inputs of one pipeline pass. -/
structure World where
  listing : ListingResult
  page : String → PageResult
  image : String → ImgFetch
  search : String → String → Option (List String)

/-- Embedding of `AdCompetitionSpider.parse_news_content` (lines 55-152):
on a page-fetch exception the whole extraction returns `none`; otherwise
image texts are collected into `content_text` and the four field families
are matched first-match-wins, each field defaulted to its category
sentinel. -/
def parse_news_content (w : World) (url : String) : Option ContentInfo :=
  match w.page url with
  | PageResult.exn => none
  | PageResult.ok imgs =>
    let text := collect_content_text w.image imgs
    let date_info := (try_patterns (fun p => w.search p text) date_patterns).bind process_date_groups
    let requirements := match_field (fun p => w.search p text) requirements_patterns
    let organizer := match_field (fun p => w.search p text) organizer_patterns
    let undertaker := match_field (fun p => w.search p text) undertaker_patterns
    some
      { content := text
        date_info := or_sentinel date_info "未找到报名日期"
        requirements := or_sentinel requirements "未找到参赛要求"
        organizer := or_sentinel organizer "未找到主办方"
        undertaker := or_sentinel undertaker "未找到承办方" }

/-- `competition_keywords` of `fetch_news_urls` (line 171), verbatim. -/
def competition_keywords : List String :=
  ["大广赛", "征集", "参赛", "比赛", "竞赛", "作品"]

/-- `is_competition = any(keyword in title for keyword in
competition_keywords)` (line 194). -/
def is_competition_title (title : String) : Bool :=
  competition_keywords.any (fun k => str_contains title k)

/-- Link resolution of `fetch_news_urls` (lines 186-192). -/
def build_url (href : String) : String :=
  if str_starts href "http" then href
  else if str_starts href "/" then base_url ++ href
  else base_url ++ "/" ++ href

/-- One entry dictionary appended to `news_urls` (lines 200-227).
`content?` models the presence of the five content keys: `some info` for
the branch where `parse_news_content` returned a dictionary, `none` for
the bare dictionaries of the failed-extraction and not-relevant
branches. -/
structure NewsInfo where
  index : Nat
  title : String
  date : String
  url : String
  is_competition : Bool
  content? : Option ContentInfo
deriving DecidableEq

/-- Embedding of the `for index, item in enumerate(news_items, 1)` loop of
`fetch_news_urls` (lines 173-229).  The second component of the result is
the trace of URLs on which `parse_news_content` was invoked (one per
relevant entry, in order).  Malformed items — missing `<a>` or missing
`<h3>` — are skipped by `continue` but still consume an index. -/
def process_items (w : World) : List ListItem → Nat → List NewsInfo × List String
  | [], _ => ([], [])
  | ⟨none⟩ :: rest, index => process_items w rest (index + 1)
  | ⟨some ⟨none, _, _⟩⟩ :: rest, index => process_items w rest (index + 1)
  | ⟨some ⟨some title, em, href⟩⟩ :: rest, index =>
    let date := em.getD ""
    let url := build_url href
    let tail := process_items w rest (index + 1)
    if is_competition_title title then
      match parse_news_content w url with
      | some info =>
        ({ index := index, title := title, date := date, url := url,
           is_competition := true, content? := some info } :: tail.1,
         url :: tail.2)
      | none =>
        ({ index := index, title := title, date := date, url := url,
           is_competition := true, content? := none } :: tail.1,
         url :: tail.2)
    else
      ({ index := index, title := title, date := date, url := url,
         is_competition := false, content? := none } :: tail.1,
       tail.2)

/-- Embedding of `AdCompetitionSpider.fetch_news_urls` (lines 154-237):
a raised exception or a missing `ul.list_news` container yields the empty
list; otherwise the items are processed with 1-based enumeration.  The
second component is the detail-page trace of `process_items`. -/
def fetch_news_urls (w : World) : List NewsInfo × List String :=
  match w.listing with
  | ListingResult.exn => ([], [])
  | ListingResult.response _ none => ([], [])
  | ListingResult.response _ (some items) => process_items w items 1

/-- One row of the `competitions` table of `newbot.py` (lines 83-94). -/
structure CompetitionRow where
  id : String
  title : String
  url : String
  date_info : String
  requirements : String
  organizer : String
  undertaker : String
  platform : String
  created_at : Nat
deriving DecidableEq

/-- The `competitions` table: rows keyed by the `id` primary key, in
insertion order. -/
abbrev DB := List (String × CompetitionRow)

/-- The row tuple bound by the `INSERT` statement of `save_competition`
(lines 103-117): the id is the decimal string of the news index, missing
content keys default to `''` via `competition.get(..., '')`, the platform
label is constant, and `created_at` is the insertion time. -/
def row_of (c : NewsInfo) (now : Nat) : CompetitionRow :=
  { id := toString c.index
    title := c.title
    url := c.url
    date_info := match c.content? with | some i => i.date_info | none => ""
    requirements := match c.content? with | some i => i.requirements | none => ""
    organizer := match c.content? with | some i => i.organizer | none => ""
    undertaker := match c.content? with | some i => i.undertaker | none => ""
    platform := "大广赛"
    created_at := now }

/-- Embedding of `CompetitionBot.save_competition` (lines 98-123): the
`INSERT` succeeds and commits exactly when no row with the same primary
key exists, returning `True`; a duplicate key raises
`sqlite3.IntegrityError`, caught to return `False` with the table
unchanged. -/
def save_competition (db : DB) (c : NewsInfo) (now : Nat) : Bool × DB :=
  let row := row_of c now
  if db.any (fun e => e.1 == row.id) then (false, db)
  else (true, db ++ [(row.id, row)])

/-- Primary-key lookup in the `competitions` table. -/
def db_lookup (db : DB) (id : String) : Option CompetitionRow :=
  (db.find? (fun e => e.1 == id)).map (fun e => e.2)

/-- Loop body of `CompetitionBot.run_task` (lines 144-146): the state is
the table plus the list of entries pushed so far; an entry is saved only
when the content keys are present, and pushed only when the save reported
a new row. -/
def run_step (now : Nat) (st : DB × List NewsInfo) (c : NewsInfo) : DB × List NewsInfo :=
  match c.content? with
  | none => st
  | some _ =>
    let r := save_competition st.1 c now
    if r.1 then (r.2, st.2 ++ [c]) else (r.2, st.2)

/-- Embedding of `CompetitionBot.run_task` (lines 139-146): filter the
fetched entries to the competition-relevant ones, then fold the
save-and-push step over them; the result is the final table and the list
of entries handed to `push_message`, in order. -/
def run_task (entries : List NewsInfo) (db : DB) (now : Nat) : DB × List NewsInfo :=
  (entries.filter (fun n => n.is_competition)).foldl (run_step now) (db, [])

/-- Observable state of the `scheduled_task` loop after one iteration. -/
inductive SchedulerState where
  | Idle
  | Terminated (err : String)
deriving DecidableEq

/-- Embedding of one iteration of the `scheduled_task` loop of `main`
(newbot.py lines 155-158): `while True: await bot.run_task(); await
asyncio.sleep(12 * 3600)`.  The body has no exception handler, so a pass
that completes returns the loop to the inter-tick sleep (Idle), while an
exception raised by the pass propagates out of the loop and terminates
it. -/
def scheduled_task_step (pass_result : Except String Unit) : SchedulerState :=
  match pass_result with
  | Except.ok _ => SchedulerState.Idle
  | Except.error e => SchedulerState.Terminated e

end Trake

namespace Trake

/-- Claim C10: `get_text_from_image` is total at its public interface —
every download/recognition outcome yields a string (the model is a total
function); it returns the empty string when the download yields a non-200
status, when the download itself raises, and when decoding or recognition
raises; a successful recognition yields the newline-joined word texts. -/
theorem C10_get_text_total (code : Nat) (o : Except Unit (List (List String)))
    (res : List (List String)) (h : code ≠ 200) :
    get_text_from_image ImgFetch.exn = ""
    ∧ get_text_from_image (ImgFetch.response code o) = ""
    ∧ get_text_from_image (ImgFetch.response 200 (Except.error ())) = ""
    ∧ get_text_from_image (ImgFetch.response 200 (Except.ok res))
        = String.intercalate "\n" res.flatten := by
  refine ⟨rfl, ?_, rfl, rfl⟩
  simp [get_text_from_image, h]

theorem C10_witness :
    get_text_from_image (ImgFetch.response 404 (Except.error ())) = "" :=
  (C10_get_text_total 404 (Except.error ()) [] (by decide)).2.1

/-- Claim C6 counterexample: a pipeline pass that raises an exception does
not return the scheduler loop to Idle — `scheduled_task` has no exception
handler, so the loop terminates. -/
theorem C6_counterexample :
    scheduled_task_step (Except.error "sqlite3.OperationalError: database is locked")
      ≠ SchedulerState.Idle := by
  decide

/-- Claim C6 (amended): one iteration of the scheduled loop returns to
Idle exactly when the pass completed without raising; an exception raised
by the pass propagates out of the unprotected loop body and terminates the
scheduler. -/
theorem C6_amended (u : Unit) (e : String) :
    scheduled_task_step (Except.ok u) = SchedulerState.Idle
    ∧ scheduled_task_step (Except.error e) = SchedulerState.Terminated e :=
  ⟨rfl, rfl⟩

/-- Claim C7 counterexample: on a non-success HTTP response (status 500)
whose body still contains the news-list container with one item,
`fetch_news_urls` parses the body normally and returns a non-empty
sequence — the status code is never inspected, so the claim's
"non-success HTTP response implies empty sequence" fails. -/
theorem C7_counterexample :
    (fetch_news_urls
      ⟨ListingResult.response 500 (some [⟨some ⟨some "放假通知", some "2024-01-01", "/a.html"⟩⟩]),
       fun _ => PageResult.exn, fun _ => ImgFetch.exn, fun _ _ => none⟩).1 ≠ [] := by
  decide

/-- Claim C7 (amended): a network error raised while fetching or parsing
the listing page makes `fetch_news_urls` return the empty sequence rather
than raising.  The HTTP status itself is never inspected, so a non-success
response is not a failure condition of its own: its body is parsed
normally (and, as the counterexample shows, may yield entries).  Whatever
the status code, a body lacking the news-list container yields the empty
sequence; so does a body whose container holds zero items or only
malformed items (no `<a>`, or an `<a>` without `<h3>`). -/
theorem C7_amended (pg : String → PageResult) (im : String → ImgFetch)
    (se : String → String → Option (List String)) (s : Nat) :
    fetch_news_urls ⟨ListingResult.exn, pg, im, se⟩ = ([], [])
    ∧ fetch_news_urls ⟨ListingResult.response s none, pg, im, se⟩ = ([], [])
    ∧ fetch_news_urls ⟨ListingResult.response s (some []), pg, im, se⟩ = ([], [])
    ∧ (∀ (em : Option String) (href : String),
        fetch_news_urls
          ⟨ListingResult.response s (some [⟨none⟩, ⟨some ⟨none, em, href⟩⟩]), pg, im, se⟩
          = ([], [])) :=
  ⟨rfl, rfl, rfl, fun _ _ => rfl⟩

/-- Claim C1: inserting the same announcement id twice returns `true` on
the first call and `false` on the second, and the stored row after both
calls is the row written by the first call — the second attempt leaves the
whole table unchanged. -/
theorem C1_dedup_insert_twice (db : DB) (ca cb : NewsInfo) (n1 n2 : Nat)
    (hid : cb.index = ca.index)
    (hfresh : db.any (fun e => e.1 == toString ca.index) = false) :
    (save_competition db ca n1).1 = true
    ∧ (save_competition (save_competition db ca n1).2 cb n2).1 = false
    ∧ (save_competition (save_competition db ca n1).2 cb n2).2 = (save_competition db ca n1).2
    ∧ db_lookup (save_competition (save_competition db ca n1).2 cb n2).2 (toString cb.index)
        = some (row_of ca n1) := by
  have hrow : (row_of ca n1).id = toString ca.index := rfl
  have hrow2 : (row_of cb n2).id = toString ca.index := by
    simp [row_of, hid]
  have h1 : save_competition db ca n1 = (true, db ++ [(toString ca.index, row_of ca n1)]) := by
    simp [save_competition, hrow, hfresh]
  have h2 : save_competition (db ++ [(toString ca.index, row_of ca n1)]) cb n2
      = (false, db ++ [(toString ca.index, row_of ca n1)]) := by
    simp [save_competition, hrow2, List.any_append]
  have hfind : List.find? (fun e => e.1 == toString ca.index) db = none := by
    rw [List.find?_eq_none]
    intro x hx
    exact fun hc => by simp [List.any_eq_false.mp hfresh x hx] at hc
  refine ⟨by rw [h1], by rw [h1, h2], by rw [h1, h2], ?_⟩
  rw [h1, h2, hid]
  simp [db_lookup, List.find?_append, hfind]

theorem C1_witness :
    (save_competition [] ⟨7, "赛事A", "d1", "u1", true, none⟩ 1).1 = true
    ∧ (save_competition (save_competition [] ⟨7, "赛事A", "d1", "u1", true, none⟩ 1).2
        ⟨7, "赛事B", "d2", "u2", true, none⟩ 2).1 = false
    ∧ (save_competition (save_competition [] ⟨7, "赛事A", "d1", "u1", true, none⟩ 1).2
        ⟨7, "赛事B", "d2", "u2", true, none⟩ 2).2
      = (save_competition [] ⟨7, "赛事A", "d1", "u1", true, none⟩ 1).2
    ∧ db_lookup (save_competition (save_competition [] ⟨7, "赛事A", "d1", "u1", true, none⟩ 1).2
        ⟨7, "赛事B", "d2", "u2", true, none⟩ 2).2 (toString (7 : Nat))
      = some (row_of ⟨7, "赛事A", "d1", "u1", true, none⟩ 1) :=
  C1_dedup_insert_twice [] ⟨7, "赛事A", "d1", "u1", true, none⟩
    ⟨7, "赛事B", "d2", "u2", true, none⟩ 1 2 rfl (by decide)

end Trake
namespace Trake

/-- Claim C2: for each of the four field-pattern families, the patterns
are tried in list order and the result of the matching loop is the group
tuple of the first pattern whose search succeeds; once one pattern
matches, the loop breaks, so later patterns of the family are never
consulted — the conclusion does not depend on the search outcomes of the
patterns after the first match. -/
theorem C2_first_match_wins (search : String → String → Option (List String)) (text : String)
    (fam pre post : List String) (p : String) (gs : List String)
    (hfam : fam ∈ [date_patterns, requirements_patterns, organizer_patterns, undertaker_patterns])
    (hsplit : fam = pre ++ p :: post)
    (hpre : ∀ q ∈ pre, search q text = none)
    (hfirst : search p text = some gs) :
    try_patterns (fun q => search q text) fam = some gs := by
  subst hsplit
  clear hfam
  induction pre with
  | nil => simp [try_patterns, hfirst]
  | cons q qs ih =>
    have hq := hpre q (List.mem_cons_self q qs)
    simp only [List.cons_append, try_patterns, hq]
    exact ih (fun r hr => hpre r (List.mem_cons_of_mem q hr))

theorem C2_witness :
    try_patterns
      (fun q => (fun pat _ =>
        if pat = "主办单位[：:]\\s*([^。\\n]+)" then some ["中国广告协会"] else none) q "正文")
      organizer_patterns = some ["中国广告协会"] :=
  C2_first_match_wins
    (fun pat _ => if pat = "主办单位[：:]\\s*([^。\\n]+)" then some ["中国广告协会"] else none)
    "正文" organizer_patterns
    ["主办[：:]\\s*([^。\\n]+)"] ["主办方[：:]\\s*([^。\\n]+)"]
    "主办单位[：:]\\s*([^。\\n]+)" ["中国广告协会"]
    (by decide) rfl (by decide) (by decide)

/-- The accumulation step of `collect_content_text` appends exactly the
per-image contribution. -/
theorem collect_step_eq (wi : String → ImgFetch) (a src : String) :
    (if src = "" then a
     else
       let t := get_text_from_image (wi (normalize_img_url src))
       if t = "" then a else a ++ "\n" ++ t)
    = a ++ img_contribution wi src := by
  unfold img_contribution
  by_cases h : src = ""
  · simp [h]
  · simp only [h, if_false]
    by_cases h2 : get_text_from_image (wi (normalize_img_url src)) = ""
    · simp [h2]
    · simp [h2, String.append_assoc]

/-- Folding the accumulation step from any prefix yields that prefix
followed by the ordered concatenation of the per-image contributions. -/
theorem collect_foldl_eq (wi : String → ImgFetch) :
    ∀ (imgs : List String) (a : String),
    imgs.foldl (fun acc src =>
      if src = "" then acc
      else
        let t := get_text_from_image (wi (normalize_img_url src))
        if t = "" then acc else acc ++ "\n" ++ t) a
    = a ++ concat_parts (imgs.map (img_contribution wi))
  | [], a => by simp [concat_parts]
  | src :: rest, a => by
    simp only [List.foldl, List.map, concat_parts]
    rw [collect_step_eq, collect_foldl_eq wi rest, String.append_assoc]

/-- Claim C8: `content_text` is the ordered concatenation of the
per-image contributions — each image contributes its recognized text
(prefixed by a newline separator) in HTML appearance order, and an image
whose download or recognition fails contributes the empty string, so
removing a failed image from the page leaves the collected text of the
remaining images unchanged. -/
theorem C8_raw_text_concat (wi : String → ImgFetch) (pre post : List String) (bad : String)
    (hbad : img_contribution wi bad = "") :
    (∀ imgs : List String,
      collect_content_text wi imgs = concat_parts (imgs.map (img_contribution wi)))
    ∧ collect_content_text wi (pre ++ bad :: post) = collect_content_text wi (pre ++ post) := by
  have hall : ∀ imgs : List String,
      collect_content_text wi imgs = concat_parts (imgs.map (img_contribution wi)) := by
    intro imgs
    unfold collect_content_text
    rw [collect_foldl_eq]
    simp
  refine ⟨hall, ?_⟩
  rw [hall, hall]
  induction pre with
  | nil => simp [concat_parts, hbad]
  | cons x xs ih =>
    simp only [List.cons_append, List.map, concat_parts, List.append_eq]
    rw [ih]

theorem C8_witness :
    (collect_content_text (fun _ => ImgFetch.response 200 (Except.ok [["文字"]]))
        ["a.png", "b.png"]
      = concat_parts (["a.png", "b.png"].map
          (img_contribution (fun _ => ImgFetch.response 200 (Except.ok [["文字"]])))))
    ∧ collect_content_text (fun _ => ImgFetch.response 200 (Except.ok [["文字"]]))
        (["a.png"] ++ "" :: ["b.png"])
      = collect_content_text (fun _ => ImgFetch.response 200 (Except.ok [["文字"]]))
        (["a.png"] ++ ["b.png"]) :=
  ⟨(C8_raw_text_concat (fun _ => ImgFetch.response 200 (Except.ok [["文字"]]))
      ["a.png"] ["b.png"] "" (by decide)).1 ["a.png", "b.png"],
   (C8_raw_text_concat (fun _ => ImgFetch.response 200 (Except.ok [["文字"]]))
      ["a.png"] ["b.png"] "" (by decide)).2⟩

end Trake
namespace Trake

/-- Every entry accumulated into the pushed list by the `run_task` fold
either was already pushed or is a folded entry whose content keys are
present. -/
theorem run_fold_pushed (now : Nat) :
    ∀ (l : List NewsInfo) (st : DB × List NewsInfo) (p : NewsInfo),
    p ∈ (l.foldl (run_step now) st).2 → p ∈ st.2 ∨ (p ∈ l ∧ p.content?.isSome = true)
  | [], _, _, h => Or.inl h
  | c :: cs, st, p, h => by
    rcases run_fold_pushed now cs (run_step now st c) p h with h1 | h2
    · unfold run_step at h1
      cases hc : c.content? with
      | none => rw [hc] at h1; exact Or.inl h1
      | some ci =>
        rw [hc] at h1
        by_cases hs : (save_competition st.1 c now).1 = true
        · simp only [hs, if_true] at h1
          rcases List.mem_append.mp h1 with h3 | h3
          · exact Or.inl h3
          · have : p = c := by simpa using h3
            subst this
            exact Or.inr ⟨List.mem_cons_self p cs, by simp [hc]⟩
        · simp only [hs, if_false] at h1
          exact Or.inl h1
    · exact Or.inr ⟨List.mem_cons_of_mem c h2.1, h2.2⟩

/-- Every primary key present in the table after the `run_task` fold was
either present before the fold or is the decimal index of a folded entry
whose content keys are present. -/
theorem run_fold_ids (now : Nat) :
    ∀ (l : List NewsInfo) (st : DB × List NewsInfo) (id : String),
    id ∈ (l.foldl (run_step now) st).1.map Prod.fst →
    id ∈ st.1.map Prod.fst ∨ ∃ c ∈ l, c.content?.isSome = true ∧ id = toString c.index
  | [], _, _, h => Or.inl h
  | c :: cs, st, id, h => by
    rcases run_fold_ids now cs (run_step now st c) id h with h1 | h2
    · unfold run_step at h1
      cases hc : c.content? with
      | none => rw [hc] at h1; exact Or.inl h1
      | some ci =>
        rw [hc] at h1
        by_cases hs : (save_competition st.1 c now).1 = true
        · simp only [hs, if_true] at h1
          unfold save_competition at h1 hs
          by_cases hdup : st.1.any (fun e => e.1 == (row_of c now).id) = true
          · simp [hdup] at hs
          · simp only [Bool.not_eq_true] at hdup
            simp only [hdup, if_false] at h1
            rcases List.mem_map.mp h1 with ⟨e, he, hfst⟩
            rcases List.mem_append.mp he with h3 | h3
            · exact Or.inl (hfst ▸ List.mem_map_of_mem Prod.fst h3)
            · have : e = ((row_of c now).id, row_of c now) := by simpa using h3
              subst this
              exact Or.inr ⟨c, List.mem_cons_self c cs, by simp [hc], hfst ▸ rfl⟩
        · simp only [hs, if_false] at h1
          unfold save_competition at h1 hs
          by_cases hdup : st.1.any (fun e => e.1 == (row_of c now).id) = true
          · simp only [hdup, if_true] at h1
            exact Or.inl h1
          · simp only [Bool.not_eq_true] at hdup
            simp [hdup] at hs
    · rcases h2 with ⟨d, hd, hcont, hid⟩
      exact Or.inr ⟨d, List.mem_cons_of_mem c hd, hcont, hid⟩

end Trake
namespace Trake

/-- The detail-page trace of the listing loop is exactly the URLs of the
competition-relevant produced entries, in order. -/
theorem process_items_trace (w : World) :
    ∀ (items : List ListItem) (i : Nat),
    (process_items w items i).2
      = ((process_items w items i).1.filter (fun n => n.is_competition)).map (fun n => n.url)
  | [], _ => rfl
  | ⟨none⟩ :: rest, i => process_items_trace w rest (i + 1)
  | ⟨some ⟨none, em, href⟩⟩ :: rest, i => process_items_trace w rest (i + 1)
  | ⟨some ⟨some title, em, href⟩⟩ :: rest, i => by
    have ih := process_items_trace w rest (i + 1)
    by_cases hc : is_competition_title title = true
    · cases hpc : parse_news_content w (build_url href) with
      | none => simp [process_items, hc, hpc, List.filter, ih]
      | some info => simp [process_items, hc, hpc, List.filter, ih]
    · simp only [Bool.not_eq_true] at hc
      simp [process_items, hc, List.filter, ih]

/-- Each produced entry's relevance flag equals the keyword test on its
own title. -/
theorem process_items_is_comp (w : World) :
    ∀ (items : List ListItem) (i : Nat) (n : NewsInfo),
    n ∈ (process_items w items i).1 → n.is_competition = is_competition_title n.title
  | [], _, _, h => absurd h (by simp [process_items])
  | ⟨none⟩ :: rest, i, n, h => process_items_is_comp w rest (i + 1) n h
  | ⟨some ⟨none, em, href⟩⟩ :: rest, i, n, h => process_items_is_comp w rest (i + 1) n h
  | ⟨some ⟨some title, em, href⟩⟩ :: rest, i, n, h => by
    have ih := process_items_is_comp w rest (i + 1) n
    by_cases hc : is_competition_title title = true
    · cases hpc : parse_news_content w (build_url href) with
      | none =>
        simp only [process_items, hc, if_true, hpc] at h
        rcases List.mem_cons.mp h with h1 | h1
        · subst h1; simpa using hc.symm
        · exact ih h1
      | some info =>
        simp only [process_items, hc, if_true, hpc] at h
        rcases List.mem_cons.mp h with h1 | h1
        · subst h1; simpa using hc.symm
        · exact ih h1
    · simp only [Bool.not_eq_true] at hc
      simp only [process_items, hc, Bool.false_eq_true, if_false] at h
      rcases List.mem_cons.mp h with h1 | h1
      · subst h1; simpa using hc.symm
      · exact ih h1

/-- The indices of the produced entries form a sublist of the consecutive
range of ordinals starting at the loop's first index: every produced entry
keeps the ordinal of its own list item, and skipped malformed items still
consume an ordinal. -/
theorem process_items_indices (w : World) :
    ∀ (items : List ListItem) (i : Nat),
    ((process_items w items i).1.map (fun n => n.index)).Sublist (List.range' i items.length)
  | [], _ => by simp [process_items]
  | ⟨none⟩ :: rest, i => by
    rw [List.length_cons, List.range'_succ]
    exact (process_items_indices w rest (i + 1)).cons i
  | ⟨some ⟨none, em, href⟩⟩ :: rest, i => by
    rw [List.length_cons, List.range'_succ]
    exact (process_items_indices w rest (i + 1)).cons i
  | ⟨some ⟨some title, em, href⟩⟩ :: rest, i => by
    have ih := process_items_indices w rest (i + 1)
    rw [List.length_cons, List.range'_succ]
    by_cases hc : is_competition_title title = true
    · cases hpc : parse_news_content w (build_url href) with
      | none =>
        simp only [process_items, hc, if_true, hpc, List.map]
        exact ih.cons₂ i
      | some info =>
        simp only [process_items, hc, if_true, hpc, List.map]
        exact ih.cons₂ i
    · simp only [Bool.not_eq_true] at hc
      simp only [process_items, hc, Bool.false_eq_true, if_false, List.map]
      exact ih.cons₂ i

end Trake


namespace Trake

/-- Claim C9: produced entries keep the 1-based ordinal of their own list
item: within one loop run the index sequence is a sublist of the
consecutive ordinal range (so skipped malformed items still consume an
ordinal and the produced indices need not be contiguous), the indices are
strictly increasing, the persisted id is the decimal string of the index,
and `fetch_news_urls` starts the enumeration at ordinal 1. -/
theorem C9_ordinal_identity (w : World) (items : List ListItem) (i : Nat) :
    ((process_items w items i).1.map (fun n => n.index)).Sublist (List.range' i items.length)
    ∧ ((process_items w items i).1.map (fun n => n.index)).Pairwise (· < ·)
    ∧ (∀ (c : NewsInfo) (now : Nat), (row_of c now).id = toString c.index)
    ∧ (∀ (s : Nat) (its : List ListItem),
        ((fetch_news_urls ⟨ListingResult.response s (some its), w.page, w.image, w.search⟩).1.map
          (fun n => n.index)).Sublist (List.range' 1 its.length)) :=
  ⟨process_items_indices w items i,
   List.Pairwise.sublist (process_items_indices w items i)
     (List.pairwise_lt_range' i items.length),
   fun _ _ => rfl,
   fun s its =>
     process_items_indices ⟨ListingResult.response s (some its), w.page, w.image, w.search⟩ its 1⟩

/-- Claim C5: a listing entry whose title matches no relevance keyword
never reaches the content extractor and is neither saved nor pushed: the
detail-page trace equals exactly the URLs of the relevance-flagged
entries, the relevance flag of every produced entry is the keyword test on
its own title, every pushed entry carries the relevance flag, and every
table key gained by a pass comes from a relevance-flagged entry. -/
theorem C5_irrelevant_isolated (w : World) (items : List ListItem) (i : Nat)
    (entries : List NewsInfo) (db : DB) (now : Nat) :
    (process_items w items i).2
      = ((process_items w items i).1.filter (fun n => n.is_competition)).map (fun n => n.url)
    ∧ (∀ n ∈ (process_items w items i).1, n.is_competition = is_competition_title n.title)
    ∧ (∀ p ∈ (run_task entries db now).2, p.is_competition = true)
    ∧ (∀ id ∈ (run_task entries db now).1.map Prod.fst,
         id ∈ db.map Prod.fst ∨ ∃ c ∈ entries, c.is_competition = true ∧ id = toString c.index) := by
  refine ⟨process_items_trace w items i, process_items_is_comp w items i, ?_, ?_⟩
  · intro p hp
    rcases run_fold_pushed now (entries.filter (fun n => n.is_competition)) (db, []) p hp
      with h | h
    · simp at h
    · exact (List.mem_filter.mp h.1).2
  · intro id hid
    rcases run_fold_ids now (entries.filter (fun n => n.is_competition)) (db, []) id hid
      with h | h
    · exact Or.inl h
    · rcases h with ⟨c, hc, _, hid2⟩
      rcases List.mem_filter.mp hc with ⟨hce, hcc⟩
      exact Or.inr ⟨c, hce, hcc, hid2⟩

theorem C5_witness :
    ((process_items ⟨ListingResult.exn, fun _ => PageResult.exn, fun _ => ImgFetch.exn,
        fun _ _ => none⟩ [⟨some ⟨some "放假通知", none, "n.html"⟩⟩] 1).2
      = ((process_items ⟨ListingResult.exn, fun _ => PageResult.exn, fun _ => ImgFetch.exn,
          fun _ _ => none⟩ [⟨some ⟨some "放假通知", none, "n.html"⟩⟩] 1).1.filter
            (fun n => n.is_competition)).map (fun n => n.url))
    ∧ (NewsInfo.mk 1 "放假通知" "" "https://www.sun-ada.net/n.html" false none).is_competition
        = is_competition_title
            (NewsInfo.mk 1 "放假通知" "" "https://www.sun-ada.net/n.html" false none).title
    ∧ (NewsInfo.mk 1 "2024参赛" "" "u" true (some ⟨"", "a", "b", "c", "d"⟩)).is_competition = true
    ∧ ("1" ∈ ([] : DB).map Prod.fst
        ∨ ∃ c ∈ [NewsInfo.mk 1 "2024参赛" "" "u" true (some ⟨"", "a", "b", "c", "d"⟩)],
            c.is_competition = true ∧ "1" = toString c.index) :=
  ⟨(C5_irrelevant_isolated ⟨ListingResult.exn, fun _ => PageResult.exn, fun _ => ImgFetch.exn,
      fun _ _ => none⟩ [⟨some ⟨some "放假通知", none, "n.html"⟩⟩] 1
      [NewsInfo.mk 1 "2024参赛" "" "u" true (some ⟨"", "a", "b", "c", "d"⟩)] [] 0).1,
   (C5_irrelevant_isolated ⟨ListingResult.exn, fun _ => PageResult.exn, fun _ => ImgFetch.exn,
      fun _ _ => none⟩ [⟨some ⟨some "放假通知", none, "n.html"⟩⟩] 1
      [NewsInfo.mk 1 "2024参赛" "" "u" true (some ⟨"", "a", "b", "c", "d"⟩)] [] 0).2.1
     (NewsInfo.mk 1 "放假通知" "" "https://www.sun-ada.net/n.html" false none) (by decide),
   (C5_irrelevant_isolated ⟨ListingResult.exn, fun _ => PageResult.exn, fun _ => ImgFetch.exn,
      fun _ _ => none⟩ [⟨some ⟨some "放假通知", none, "n.html"⟩⟩] 1
      [NewsInfo.mk 1 "2024参赛" "" "u" true (some ⟨"", "a", "b", "c", "d"⟩)] [] 0).2.2.1
     (NewsInfo.mk 1 "2024参赛" "" "u" true (some ⟨"", "a", "b", "c", "d"⟩)) (by decide),
   (C5_irrelevant_isolated ⟨ListingResult.exn, fun _ => PageResult.exn, fun _ => ImgFetch.exn,
      fun _ _ => none⟩ [⟨some ⟨some "放假通知", none, "n.html"⟩⟩] 1
      [NewsInfo.mk 1 "2024参赛" "" "u" true (some ⟨"", "a", "b", "c", "d"⟩)] [] 0).2.2.2
     "1" (by decide)⟩

end Trake


namespace Trake

/-- Claim C4 counterexample: a relevant entry whose detail-page extraction
failed (no content keys) is NOT handed to the subscriber
formatting/notification layer — `run_task` pushes nothing for it (and also
saves nothing), because the `'content' in competition` guard short-circuits
before both `save_competition` and `push_message`. -/
theorem C4_counterexample :
    run_task [⟨1, "2024参赛", "", "u", true, none⟩] [] 0 = ([], []) := by
  decide

/-- Claim C4 (amended): a relevant entry whose detail page fetch raises is
still surfaced by the listing fetch as a bare announcement (relevance flag
set, no content keys) and its URL is still traced as a content-extraction
attempt, but during the pass it is neither pushed to the notification
layer (every pushed entry has content keys) nor inserted into the dedup
store (every key gained by the table comes from an entry with content
keys). -/
theorem C4_failed_extraction_isolated (w : World) (title em href : String)
    (rest : List ListItem) (i : Nat)
    (entries : List NewsInfo) (db : DB) (now : Nat) (p : NewsInfo)
    (hrel : is_competition_title title = true)
    (hpage : w.page (build_url href) = PageResult.exn)
    (hp : p ∈ (run_task entries db now).2) :
    process_items w (⟨some ⟨some title, some em, href⟩⟩ :: rest) i
      = ({ index := i, title := title, date := em, url := build_url href,
           is_competition := true, content? := none } :: (process_items w rest (i + 1)).1,
         build_url href :: (process_items w rest (i + 1)).2)
    ∧ p.content?.isSome = true
    ∧ (∀ id ∈ (run_task entries db now).1.map Prod.fst,
         id ∈ db.map Prod.fst ∨ ∃ c ∈ entries, c.content?.isSome = true ∧ id = toString c.index) := by
  refine ⟨?_, ?_, ?_⟩
  · have hpc : parse_news_content w (build_url href) = none := by
      unfold parse_news_content
      rw [hpage]
    simp [process_items, hrel, hpc]
  · rcases run_fold_pushed now (entries.filter (fun n => n.is_competition)) (db, []) p hp
      with h | h
    · simp at h
    · exact h.2
  · intro id hid
    rcases run_fold_ids now (entries.filter (fun n => n.is_competition)) (db, []) id hid
      with h | h
    · exact Or.inl h
    · rcases h with ⟨c, hc, hcont, hid2⟩
      exact Or.inr ⟨c, (List.mem_filter.mp hc).1, hcont, hid2⟩

theorem C4_witness :
    (process_items ⟨ListingResult.exn, fun _ => PageResult.exn, fun _ => ImgFetch.exn,
        fun _ _ => none⟩ [⟨some ⟨some "2024参赛", some "1月1日", "a.html"⟩⟩] 1
      = ({ index := 1, title := "2024参赛", date := "1月1日", url := build_url "a.html",
           is_competition := true, content? := none }
          :: (process_items ⟨ListingResult.exn, fun _ => PageResult.exn, fun _ => ImgFetch.exn,
              fun _ _ => none⟩ [] 2).1,
         build_url "a.html"
          :: (process_items ⟨ListingResult.exn, fun _ => PageResult.exn, fun _ => ImgFetch.exn,
              fun _ _ => none⟩ [] 2).2))
    ∧ (NewsInfo.mk 1 "2024参赛" "" "u" true (some ⟨"", "a", "b", "c", "d"⟩)).content?.isSome = true
    ∧ (∀ id ∈ (run_task [NewsInfo.mk 1 "2024参赛" "" "u" true (some ⟨"", "a", "b", "c", "d"⟩)]
          [] 0).1.map Prod.fst,
        id ∈ ([] : DB).map Prod.fst
        ∨ ∃ c ∈ [NewsInfo.mk 1 "2024参赛" "" "u" true (some ⟨"", "a", "b", "c", "d"⟩)],
            c.content?.isSome = true ∧ id = toString c.index) :=
  C4_failed_extraction_isolated
    ⟨ListingResult.exn, fun _ => PageResult.exn, fun _ => ImgFetch.exn, fun _ _ => none⟩
    "2024参赛" "1月1日" "a.html" [] 1
    [NewsInfo.mk 1 "2024参赛" "" "u" true (some ⟨"", "a", "b", "c", "d"⟩)] [] 0
    (NewsInfo.mk 1 "2024参赛" "" "u" true (some ⟨"", "a", "b", "c", "d"⟩))
    (by decide) rfl (by decide)

/-- Defaulting dichotomy: the stored field is the sentinel or the value of
a successful match. -/
theorem or_sentinel_cases (v : Option String) (d : String) :
    or_sentinel v d = d ∨ ∃ s, v = some s ∧ or_sentinel v d = s := by
  cases v with
  | none => exact Or.inl rfl
  | some s =>
    by_cases h : s = ""
    · exact Or.inl (by simp [or_sentinel, h])
    · exact Or.inr ⟨s, rfl, by simp [or_sentinel, h]⟩

/-- Claim C3 counterexample: for an entry whose detail-page processing
fails, the four extracted fields are NOT present: `parse_news_content`
returns no field record at all, and the entry surfaced by
`fetch_news_urls` is the bare record without the content keys. -/
theorem C3_counterexample :
    parse_news_content ⟨ListingResult.exn, fun _ => PageResult.exn, fun _ => ImgFetch.exn,
        fun _ _ => none⟩ "https://www.sun-ada.net/a.html" = none
    ∧ (fetch_news_urls ⟨ListingResult.response 200 (some [⟨some ⟨some "2024参赛", none, "/a.html"⟩⟩]),
        fun _ => PageResult.exn, fun _ => ImgFetch.exn, fun _ _ => none⟩).1
      = [⟨1, "2024参赛", "", "https://www.sun-ada.net/a.html", true, none⟩] := by
  refine ⟨rfl, by decide⟩

/-- Claim C3 (amended): whenever content extraction succeeds (returns a
field record), each of the four extracted fields is present and is either
the value of its pattern family's first successful match over the page's
collected text or that category's fixed not-found sentinel; when the
detail-page processing fails the extraction returns `none` and the entry
carries no extracted fields. -/
theorem C3_fields_present_on_success (w : World) (url : String) (info : ContentInfo)
    (h : parse_news_content w url = some info) :
    (info.date_info = "未找到报名日期" ∨ ∃ v,
       (try_patterns (fun p => w.search p info.content) date_patterns).bind process_date_groups
         = some v ∧ info.date_info = v)
    ∧ (info.requirements = "未找到参赛要求" ∨ ∃ v,
       match_field (fun p => w.search p info.content) requirements_patterns = some v
         ∧ info.requirements = v)
    ∧ (info.organizer = "未找到主办方" ∨ ∃ v,
       match_field (fun p => w.search p info.content) organizer_patterns = some v
         ∧ info.organizer = v)
    ∧ (info.undertaker = "未找到承办方" ∨ ∃ v,
       match_field (fun p => w.search p info.content) undertaker_patterns = some v
         ∧ info.undertaker = v) := by
  unfold parse_news_content at h
  cases hp : w.page url with
  | exn =>
    rw [hp] at h
    simp at h
  | ok imgs =>
    rw [hp] at h
    simp only [Option.some.injEq] at h
    subst h
    exact ⟨or_sentinel_cases _ _, or_sentinel_cases _ _, or_sentinel_cases _ _,
      or_sentinel_cases _ _⟩

theorem C3_witness :
    ((ContentInfo.mk "" "未找到报名日期" "未找到参赛要求" "未找到主办方" "未找到承办方").date_info
        = "未找到报名日期"
      ∨ ∃ v, (try_patterns (fun p => (fun (_ _ : String) => (none : Option (List String))) p
          (ContentInfo.mk "" "未找到报名日期" "未找到参赛要求" "未找到主办方" "未找到承办方").content)
          date_patterns).bind process_date_groups = some v
        ∧ (ContentInfo.mk "" "未找到报名日期" "未找到参赛要求" "未找到主办方" "未找到承办方").date_info = v)
    ∧ ((ContentInfo.mk "" "未找到报名日期" "未找到参赛要求" "未找到主办方" "未找到承办方").requirements
        = "未找到参赛要求"
      ∨ ∃ v, match_field (fun p => (fun (_ _ : String) => (none : Option (List String))) p
          (ContentInfo.mk "" "未找到报名日期" "未找到参赛要求" "未找到主办方" "未找到承办方").content)
          requirements_patterns = some v
        ∧ (ContentInfo.mk "" "未找到报名日期" "未找到参赛要求" "未找到主办方" "未找到承办方").requirements
            = v)
    ∧ ((ContentInfo.mk "" "未找到报名日期" "未找到参赛要求" "未找到主办方" "未找到承办方").organizer
        = "未找到主办方"
      ∨ ∃ v, match_field (fun p => (fun (_ _ : String) => (none : Option (List String))) p
          (ContentInfo.mk "" "未找到报名日期" "未找到参赛要求" "未找到主办方" "未找到承办方").content)
          organizer_patterns = some v
        ∧ (ContentInfo.mk "" "未找到报名日期" "未找到参赛要求" "未找到主办方" "未找到承办方").organizer
            = v)
    ∧ ((ContentInfo.mk "" "未找到报名日期" "未找到参赛要求" "未找到主办方" "未找到承办方").undertaker
        = "未找到承办方"
      ∨ ∃ v, match_field (fun p => (fun (_ _ : String) => (none : Option (List String))) p
          (ContentInfo.mk "" "未找到报名日期" "未找到参赛要求" "未找到主办方" "未找到承办方").content)
          undertaker_patterns = some v
        ∧ (ContentInfo.mk "" "未找到报名日期" "未找到参赛要求" "未找到主办方" "未找到承办方").undertaker
            = v) :=
  C3_fields_present_on_success
    ⟨ListingResult.exn, fun _ => PageResult.ok [], fun _ => ImgFetch.exn,
     fun (_ _ : String) => (none : Option (List String))⟩
    "u" (ContentInfo.mk "" "未找到报名日期" "未找到参赛要求" "未找到主办方" "未找到承办方") rfl

end Trake
